import Mathlib

/-
  Shallow embedding of the core logic of the forecast-temperature-accuracy
  card (src/forecast-temperature-accuracy-card.js, v1.4.0 class starting at
  line 1427).  JavaScript numbers are modelled as exact rationals (ℚ),
  timestamps as rationals (epoch milliseconds), nullable values as Option,
  thrown exceptions as Except.  Each definition mirrors one source function.
-/

namespace ForecastCard

/-- A stored comparison record, as pushed by `_recordComparison`
(source lines 2248-2254). -/
structure HRecord where
  timestamp : ℚ
  forecast : ℚ
  forecastLookahead : Option ℚ
  actual : ℚ
  delta : ℚ
  deriving DecidableEq, Repr

/-- The persisted history value: JSON-shaped as
a records list plus a last-updated stamp. -/
structure HistoryLog where
  records : List HRecord
  last_updated : ℚ
  deriving DecidableEq, Repr

/-- The trend classification values produced by `_calculateStatistics`. -/
inductive Trend where
  | improving
  | degrading
  | stable
  deriving DecidableEq, Repr

/-- The derived statistics object assigned to `this._statistics`
(source lines 2320-2327). -/
structure Stats where
  mae : Option ℚ
  bias : Option ℚ
  trend : Trend
  accuracy : Option ℚ
  recordCount : Nat
  recentRecords : List HRecord
  deriving DecidableEq, Repr

/-- The trend block of `_calculateStatistics` (source lines 2295-2314):
partition the records into the last 24 h and the 24 h before that, and
compare the two partitions' mean absolute errors against fixed ±0.5
thresholds.  Factored out of `calculateStatistics` verbatim. -/
def calcTrend (records : List HRecord) (now : ℚ) : Trend :=
  let oneDayAgo := now - 24 * 60 * 60 * 1000
  let twoDaysAgo := now - 48 * 60 * 60 * 1000
  let recentRecords := records.filter (fun r => decide (r.timestamp > oneDayAgo))
  let previousRecords := records.filter
    (fun r => decide (r.timestamp > twoDaysAgo) && decide (r.timestamp ≤ oneDayAgo))
  if recentRecords.length ≥ 2 ∧ previousRecords.length ≥ 2 then
    let recentMAE :=
      recentRecords.foldl (fun s r => s + |r.delta|) 0 / (recentRecords.length : ℚ)
    let previousMAE :=
      previousRecords.foldl (fun s r => s + |r.delta|) 0 / (previousRecords.length : ℚ)
    let diff := recentMAE - previousMAE
    if diff < -(1 / 2 : ℚ) then Trend.improving
    else if diff > (1 / 2 : ℚ) then Trend.degrading
    else Trend.stable
  else Trend.stable

/-- `_calculateStatistics` (source lines 2270-2328), as a function of the
loaded records and the clock.  The JavaScript `reduce` accumulations are
kept as left folds. -/
def calculateStatistics (records : List HRecord) (now : ℚ) : Stats :=
  if records.length = 0 then
    { mae := none, bias := none, trend := Trend.stable, accuracy := none,
      recordCount := 0, recentRecords := [] }
  else
    let sumAbsError := records.foldl (fun s r => s + |r.delta|) 0
    let mae := sumAbsError / (records.length : ℚ)
    let sumDelta := records.foldl (fun s r => s + r.delta) 0
    let bias := sumDelta / (records.length : ℚ)
    let trend := calcTrend records now
    let accurateCount := (records.filter (fun r => decide (|r.delta| ≤ 2))).length
    let accuracyPct := ((accurateCount : ℚ) / (records.length : ℚ)) * 100
    { mae := some mae, bias := some bias, trend := trend, accuracy := some accuracyPct,
      recordCount := records.length,
      recentRecords := records.drop (records.length - 168) }

/-- The mean absolute error of a record list as the specification phrases it:
the arithmetic mean of the absolute deltas. -/
def listMAE (l : List HRecord) : ℚ :=
  (l.map (fun r => |r.delta|)).sum / (l.length : ℚ)

/-- Trend classification written from the specification text: partition into
recent (timestamp in the last 24 h) and previous (the 24 h before that); if
either partition has fewer than 2 records the trend is stable; otherwise
compare the difference of the partitions' MAEs with ±0.5. -/
def specTrend (records : List HRecord) (now : ℚ) : Trend :=
  let recent := records.filter
    (fun r => decide (r.timestamp > now - 24 * 60 * 60 * 1000))
  let previous := records.filter
    (fun r => decide (r.timestamp > now - 48 * 60 * 60 * 1000) &&
              decide (r.timestamp ≤ now - 24 * 60 * 60 * 1000))
  if recent.length < 2 ∨ previous.length < 2 then Trend.stable
  else
    let diff := listMAE recent - listMAE previous
    if diff < -(1 / 2 : ℚ) then Trend.improving
    else if diff > (1 / 2 : ℚ) then Trend.degrading
    else Trend.stable

/-- `_recordComparison` (source lines 2226-2268) as a pure state transformer
on the loaded history: dedup check over an 0.8-of-refresh-interval window,
conditional push of a new record, then retention pruning.  The same logic is
`_recordComparisonSecondary` (lines 2357-2382) with the secondary fields. -/
def recordComparison (refreshInterval historyDays : ℚ)
    (currentForecast currentForecastLookahead currentActual : Option ℚ)
    (history : HistoryLog) (now : ℚ) : HistoryLog :=
  let dedupWindowMs := refreshInterval * 60 * 1000 * (8 / 10)
  let recentCutoff := now - dedupWindowMs
  let hasRecentRecord := history.records.any (fun r => decide (r.timestamp > recentCutoff))
  let records1 :=
    match hasRecentRecord, currentForecast, currentActual with
    | false, some f, some a =>
        history.records ++
          [({ timestamp := now, forecast := f,
              forecastLookahead := currentForecastLookahead,
              actual := a, delta := f - a } : HRecord)]
    | _, _, _ => history.records
  let cutoffTime := now - historyDays * 24 * 60 * 60 * 1000
  { records := records1.filter (fun r => decide (r.timestamp > cutoffTime)),
    last_updated := now }

/-- One dynamically-typed JSON field value, as far as `_loadHistory`
inspects it: presence, truthiness and number-ness. -/
inductive JsonField where
  | absent
  | jnull
  | jbool (b : Bool)
  | jnum (q : ℚ)
  | jstr (s : String)
  | jarr
  | jobj
  deriving DecidableEq, Repr

/-- JavaScript truthiness of a field value (arrays and objects are truthy,
null / undefined / false / 0 / empty string are falsy). -/
def JsonField.truthy : JsonField → Bool
  | JsonField.absent => false
  | JsonField.jnull => false
  | JsonField.jbool b => b
  | JsonField.jnum q => decide (q ≠ 0)
  | JsonField.jstr s => decide (s ≠ "")
  | JsonField.jarr => true
  | JsonField.jobj => true

/-- JavaScript `typeof x === "number"` on a field value. -/
def JsonField.isNumber : JsonField → Bool
  | JsonField.jnum _ => true
  | _ => false

/-- A stored record as `_loadHistory` sees it before migration: the forecast
field may have any JSON shape. -/
structure RawRecord where
  timestamp : ℚ
  forecast : JsonField
  actual : ℚ
  deriving DecidableEq, Repr

/-- A parsed stored payload as `_loadHistory` inspects it: the legacy
`pending_forecasts` field, the records list (possibly absent), and the
last-updated stamp. -/
structure StoredData where
  pending_forecasts : JsonField
  records : Option (List RawRecord)
  last_updated : ℚ
  deriving DecidableEq, Repr

/-- The empty log literal returned by `_loadHistory` on reset. -/
def emptyStoredData : StoredData :=
  { pending_forecasts := JsonField.absent, records := some [], last_updated := 0 }

/-- `_loadHistory` (source lines 2182-2214) downstream of the storage read:
`none` stands for a missing key or a parse exception; otherwise the migration
checks run on the parsed payload in source order. -/
def loadHistory (stored : Option StoredData) : StoredData :=
  match stored with
  | none => emptyStoredData
  | some data =>
    if data.pending_forecasts.truthy then emptyStoredData
    else
      match data.records with
      | some (first :: _) =>
          if first.forecast.isNumber then data else emptyStoredData
      | _ => data

/-- Replace the first occurrence of the substring "DEG", as the JavaScript
string `replace` with a string pattern does. -/
def replaceFirstDEG : List Char → List Char
  | [] => []
  | c :: rest =>
    if c = 'D' ∧ rest.take 2 = ['E', 'G'] then rest.drop 2
    else c :: replaceFirstDEG rest

/-- Whitespace characters removed by the JavaScript `trim`. -/
def jsIsSpace (c : Char) : Bool :=
  c = ' ' || c = '\t' || c = '\n' || c = '\r'

/-- JavaScript `trim`: drop whitespace from both ends. -/
def jsTrimList (l : List Char) : List Char :=
  ((l.dropWhile jsIsSpace).reverse.dropWhile jsIsSpace).reverse

/-- JavaScript `toUpperCase`, character-wise, as a character list. -/
def jsToUpper (s : String) : List Char :=
  s.toList.map Char.toUpper

/-- The source-unit normalization chain of `_normalizeTemperature`
(source line 2148): `(sourceUnit || '').toUpperCase().replace('DEG','').trim()`. -/
def normalizeSourceUnit (sourceUnit : Option String) : List Char :=
  jsTrimList (replaceFirstDEG (jsToUpper (sourceUnit.getD "")))

/-- A unit string after case/whitespace/"DEG" normalization, used to state
when two unit strings denote the same unit. -/
def unitNormForm (u : String) : List Char :=
  jsTrimList (replaceFirstDEG (jsToUpper u))

/-- `_normalizeTemperature` (source lines 2133-2158).  The target unit is the
result of `_getDisplayUnit`, passed explicitly.  A `none` source unit models a
JavaScript `null`/`undefined` unit attribute. -/
def normalizeTemperature (value : ℚ) (sourceUnit : Option String) (targetUnit : String) : ℚ :=
  if sourceUnit = some targetUnit then value
  else if sourceUnit = some "C" ∧ targetUnit = "F" then value * (9 / 5) + 32
  else if sourceUnit = some "F" ∧ targetUnit = "C" then (value - 32) * (5 / 9)
  else
    let sourceNorm := normalizeSourceUnit sourceUnit
    let targetNorm := jsToUpper targetUnit
    if sourceNorm.contains 'C' ∧ targetNorm = ['F'] then value * (9 / 5) + 32
    else if sourceNorm.contains 'F' ∧ targetNorm = ['C'] then (value - 32) * (5 / 9)
    else value

/-- One entry of the Tempest hourly forecast array; `time` is a unix-second
stamp that may be missing, `air_temperature` may be missing or null. -/
structure TempestHourly where
  time : Option ℚ
  air_temperature : Option ℚ
  deriving DecidableEq, Repr

/-- One step of the `_fetchFromTempest` closest-entry scan (source lines
1986-1994).  The accumulator is the best entry so far together with its
absolute time difference; `none` for the difference models the `NaN`
produced when the first entry has no `time` field, and a comparison against
`NaN` is false, so a `none` difference is never beaten. -/
def tempestStep (currentTimestamp : ℚ) :
    TempestHourly × Option ℚ → TempestHourly → TempestHourly × Option ℚ
  | (best, bestDiff), hourly =>
    match hourly.time with
    | some t =>
      if t ≠ 0 then
        match bestDiff with
        | some b =>
            if |t - currentTimestamp| < b then (hourly, some |t - currentTimestamp|)
            else (best, bestDiff)
        | none => (best, bestDiff)
      else (best, bestDiff)
    | none => (best, bestDiff)

/-- The "current" entry selection of `_fetchFromTempest` (source lines
1979-1994): start from the first array element and its absolute time
difference, then scan the whole array keeping the entry with the strictly
smallest difference among entries with a truthy `time`. -/
def selectCurrentHourly (first : TempestHourly) (rest : List TempestHourly)
    (currentTimestamp : ℚ) : TempestHourly :=
  ((first :: rest).foldl (tempestStep currentTimestamp)
    (first, first.time.map (fun t => |t - currentTimestamp|))).1

/-- A chart point of `_futureForecast` entries. -/
structure FuturePoint where
  timestamp : ℚ
  temp : ℚ
  deriving DecidableEq, Repr

/-- The parsed Open-Meteo secondary payload as `_fetchFromOpenMeteoSecondary`
consumes it.  `currentTemp` is `data.current.temperature_2m` (`none` when
the current-temperature field is missing).  The lookahead value and future
series are carried as the already-extracted results of the hourly
processing, whose date-string matching is abstracted here; no claim
depends on their computation. -/
structure OMSecondaryData where
  currentTemp : Option ℚ
  lookahead : Option ℚ
  future : List FuturePoint
  deriving DecidableEq, Repr

/-- The outcome of the secondary Open-Meteo fetch attempt: a thrown network
or JSON exception, a non-ok HTTP response, or a parsed payload. -/
inductive SecondaryFetch where
  | fetchError (msg : String)
  | httpNotOk (status : Nat)
  | payload (d : OMSecondaryData)
  deriving DecidableEq, Repr

/-- Whether the secondary fetch outcome is one of the failure cases handled
by `_fetchFromOpenMeteoSecondary`: HTTP error, thrown exception, or a payload
missing the current-temperature field. -/
def SecondaryFetch.failed : SecondaryFetch → Bool
  | SecondaryFetch.fetchError _ => true
  | SecondaryFetch.httpNotOk _ => true
  | SecondaryFetch.payload d => d.currentTemp.isNone

/-- `_fetchFromOpenMeteoSecondary` (source lines 2050-2131) as a total
function: every failure arm nulls the secondary values and empties the
secondary future series instead of throwing; a successful payload normalizes
the Celsius current temperature to the display unit. -/
def fetchFromOpenMeteoSecondary (o : SecondaryFetch) (targetUnit : String) :
    Option ℚ × Option ℚ × List FuturePoint :=
  match o with
  | SecondaryFetch.fetchError _ => (none, none, [])
  | SecondaryFetch.httpNotOk _ => (none, none, [])
  | SecondaryFetch.payload d =>
    match d.currentTemp with
    | none => (none, none, [])
    | some t => (some (normalizeTemperature t (some "C") targetUnit), d.lookahead, d.future)

/-- The sensor entity state as `_updateActualTemperature` reads it:
whether the entity exists, the `parseFloat` result of its state (`none` for
NaN), and its unit attribute (`none` when absent). -/
structure SensorReading where
  found : Bool
  parsed : Option ℚ
  unit : Option String
  deriving DecidableEq, Repr

/-- `_updateActualTemperature` (source lines 1858-1874): throws when the
entity is missing or non-numeric, otherwise yields the normalized reading. -/
def updateActualTemperature (sensor : SensorReading) (targetUnit : String) :
    Except String ℚ :=
  if sensor.found then
    match sensor.parsed with
    | some v => Except.ok (normalizeTemperature v sensor.unit targetUnit)
    | none => Except.error "Invalid sensor state"
  else Except.error "Sensor not found"

/-- The card's mutable fields touched by a refresh cycle.  The two
`HistoryLog` fields stand for the persisted primary and secondary logs. -/
structure CardState where
  currentForecast : Option ℚ
  currentForecastLookahead : Option ℚ
  futureForecast : List FuturePoint
  currentActual : Option ℚ
  currentForecastSecondary : Option ℚ
  currentForecastSecondaryLookahead : Option ℚ
  futureForecastSecondary : List FuturePoint
  primaryHistory : HistoryLog
  secondaryHistory : HistoryLog
  statistics : Option Stats
  statisticsSecondary : Option Stats
  error : Option String
  loading : Bool
  deriving DecidableEq, Repr

/-- The empty history value. -/
def emptyLog : HistoryLog := { records := [], last_updated := 0 }

/-- The card state as initialized by the constructor. -/
def initialState : CardState :=
  { currentForecast := none, currentForecastLookahead := none, futureForecast := [],
    currentActual := none, currentForecastSecondary := none,
    currentForecastSecondaryLookahead := none, futureForecastSecondary := [],
    primaryHistory := emptyLog, secondaryHistory := emptyLog,
    statistics := none, statisticsSecondary := none, error := none, loading := false }

/-- The external inputs of one `_fetchData` cycle: the sensor entity state,
the primary fetch outcome (`Except.error` models a thrown fetch failure; the
success value is the normalized forecast, the lookahead value, and the future
series), and the secondary fetch outcome. -/
structure FetchInputs where
  sensor : SensorReading
  primary : Except String (ℚ × Option ℚ × List FuturePoint)
  secondary : SecondaryFetch
  deriving Repr

/-- `_fetchData` (source lines 1814-1856) for one refresh cycle.
`comparisonMode` is `_isComparisonMode()`.  Exceptions thrown by the sensor
read or the primary fetch are caught by the surrounding try/catch, which
records the message in the error field; the secondary fetch cannot throw.
Recording and statistics mirror lines 1836-1848; the secondary recording
reuses `recordComparison`, whose logic `_recordComparisonSecondary`
duplicates verbatim for the secondary fields. -/
def fetchData (comparisonMode : Bool) (refreshInterval historyDays : ℚ)
    (targetUnit : String) (inp : FetchInputs) (now : ℚ) (s0 : CardState) : CardState :=
  let s := { s0 with loading := true, error := none }
  match updateActualTemperature inp.sensor targetUnit with
  | Except.error e => { s with error := some e, loading := false }
  | Except.ok actual =>
    let s := { s with currentActual := some actual }
    match inp.primary with
    | Except.error e => { s with error := some e, loading := false }
    | Except.ok (f, lk, fut) =>
      let s := { s with currentForecast := some f, currentForecastLookahead := lk,
                        futureForecast := fut }
      let s :=
        if comparisonMode then
          let sec := fetchFromOpenMeteoSecondary inp.secondary targetUnit
          { s with currentForecastSecondary := sec.1,
                   currentForecastSecondaryLookahead := sec.2.1,
                   futureForecastSecondary := sec.2.2 }
        else s
      let s :=
        if s.currentForecast ≠ (none : Option ℚ) ∧ s.currentActual ≠ (none : Option ℚ) then
          { s with primaryHistory :=
              (recordComparison refreshInterval historyDays s.currentForecast
                s.currentForecastLookahead s.currentActual s.primaryHistory now) }
        else s
      let s :=
        if comparisonMode ∧ s.currentForecastSecondary ≠ (none : Option ℚ) ∧
            s.currentActual ≠ (none : Option ℚ) then
          { s with secondaryHistory :=
              (recordComparison refreshInterval historyDays s.currentForecastSecondary
                s.currentForecastSecondaryLookahead s.currentActual s.secondaryHistory now) }
        else s
      let s := { s with statistics := some (calculateStatistics s.primaryHistory.records now) }
      let s :=
        if comparisonMode then
          { s with statisticsSecondary :=
              (some (calculateStatistics s.secondaryHistory.records now)) }
        else s
      { s with loading := false }

/-! Helper lemmas -/

/-- A left fold accumulating sums, as the JavaScript `reduce` calls do,
computes the starting value plus the sum of the mapped list. -/
theorem foldl_add_init (f : HRecord → ℚ) (l : List HRecord) (init : ℚ) :
    l.foldl (fun s r => s + f r) init = init + (l.map f).sum := by
  induction l generalizing init with
  | nil => simp
  | cons r rs ih =>
    rw [List.foldl_cons, ih, List.map_cons, List.sum_cons]
    ring

/-- C1: for a non-empty record list, `_calculateStatistics` yields the MAE as
the arithmetic mean of the absolute deltas, the bias as the arithmetic mean
of the signed deltas, and the accuracy as 100 times the share of records
whose absolute delta is at most 2. -/
theorem statistics_mae_bias_accuracy (records : List HRecord) (now : ℚ)
    (h : records ≠ []) :
    (calculateStatistics records now).mae
        = some ((records.map (fun r => |r.delta|)).sum / (records.length : ℚ)) ∧
    (calculateStatistics records now).bias
        = some ((records.map (fun r => r.delta)).sum / (records.length : ℚ)) ∧
    (calculateStatistics records now).accuracy
        = some (100 * ((records.filter (fun r => decide (|r.delta| ≤ 2))).length : ℚ)
                  / (records.length : ℚ)) := by
  have hlen : ¬ records.length = 0 := by simpa using h
  unfold calculateStatistics
  rw [if_neg hlen]
  refine ⟨?_, ?_, ?_⟩
  · simp [foldl_add_init]
  · simp [foldl_add_init]
  · simp only [Option.some.injEq]
    ring

/-- Closed witness for `statistics_mae_bias_accuracy` at a one-record list. -/
theorem statistics_mae_bias_accuracy_witness :
    (calculateStatistics
        [{ timestamp := 0, forecast := 22, forecastLookahead := none,
           actual := 20, delta := 2 }] 0).mae = some 2 ∧
    (calculateStatistics
        [{ timestamp := 0, forecast := 22, forecastLookahead := none,
           actual := 20, delta := 2 }] 0).bias = some 2 ∧
    (calculateStatistics
        [{ timestamp := 0, forecast := 22, forecastLookahead := none,
           actual := 20, delta := 2 }] 0).accuracy = some 100 := by
  have h := statistics_mae_bias_accuracy
    [{ timestamp := 0, forecast := 22, forecastLookahead := none,
       actual := 20, delta := 2 }] 0 (by decide)
  refine ⟨?_, ?_, ?_⟩
  · rw [h.1]; norm_num
  · rw [h.2.1]; norm_num
  · rw [h.2.2]; norm_num

/-- The trend block of the code equals the trend classification as the
specification words it. -/
theorem calcTrend_eq_specTrend (records : List HRecord) (now : ℚ) :
    calcTrend records now = specTrend records now := by
  unfold calcTrend specTrend listMAE
  simp only [foldl_add_init, zero_add]
  split_ifs <;> first | rfl | omega

/-- C2: the trend produced by `_calculateStatistics` matches the
specification's partition-and-compare classification, for every record list
and clock instant, including the boundary differences. -/
theorem trend_matches_spec (records : List HRecord) (now : ℚ) :
    (calculateStatistics records now).trend = specTrend records now := by
  unfold calculateStatistics
  by_cases h : records.length = 0
  · rw [if_pos h]
    have hnil : records = [] := List.length_eq_zero.mp h
    subst hnil
    simp [specTrend]
  · rw [if_neg h]
    simpa using calcTrend_eq_specTrend records now

/-- C4: after a `_recordComparison` cycle — whether or not the append
happened — no stored record is older than `now - retentionDays * 86400000`. -/
theorem prune_bound_after_cycle (ri hd : ℚ) (f lk a : Option ℚ)
    (h : HistoryLog) (now : ℚ) :
    ((recordComparison ri hd f lk a h now).records.all
      (fun r => !decide (r.timestamp < now - hd * 86400000))) = true := by
  unfold recordComparison
  simp only [List.all_eq_true]
  intro r hr
  rw [List.mem_filter] at hr
  have ht : r.timestamp > now - hd * 24 * 60 * 60 * 1000 := by
    simpa using hr.2
  have heq : hd * 24 * 60 * 60 * 1000 = hd * 86400000 := by ring
  simp only [Bool.not_eq_true', decide_eq_false_iff_not, not_lt]
  linarith [heq ▸ ht]

/-- When no existing record falls inside the dedup window (and forecast and
actual are present), `_recordComparison` appends one record at `now` and then
prunes. -/
theorem recordComparison_append (ri hd : ℚ) (f a : ℚ) (lk : Option ℚ)
    (h : HistoryLog) (now : ℚ)
    (hq : h.records.any
        (fun r => decide (r.timestamp > now - ri * 60 * 1000 * (8 / 10))) = false) :
    (recordComparison ri hd (some f) lk (some a) h now).records
      = (h.records ++ [({ timestamp := now, forecast := f, forecastLookahead := lk,
                          actual := a, delta := f - a } : HRecord)]).filter
          (fun r => decide (r.timestamp > now - hd * 24 * 60 * 60 * 1000)) := by
  unfold recordComparison
  simp only [hq]

/-- When some existing record falls inside the dedup window,
`_recordComparison` appends nothing: it only prunes. -/
theorem recordComparison_skip (ri hd : ℚ) (fc lk ac : Option ℚ)
    (h : HistoryLog) (now : ℚ)
    (hq : h.records.any
        (fun r => decide (r.timestamp > now - ri * 60 * 1000 * (8 / 10))) = true) :
    (recordComparison ri hd fc lk ac h now).records
      = h.records.filter
          (fun r => decide (r.timestamp > now - hd * 24 * 60 * 60 * 1000)) := by
  unfold recordComparison
  simp only [hq]

/-- A singleton list filter keeps its element when the predicate holds. -/
theorem filter_singleton_pos {p : HRecord → Bool} {r : HRecord} (h : p r = true) :
    [r].filter p = [r] := by
  simp [List.filter_cons, h]

/-- C3 counterexample: a starting history that already holds a record inside
the first call's dedup window.  Two calls 0 ms apart (well within 0.8 of the
60-minute refresh interval, with forecast and actual present) leave the
stored records exactly as they started, so the pair of calls adds zero
records, not exactly one. -/
theorem dedup_two_calls_counterexample :
    (recordComparison 60 7 (some 20) none (some 18)
        (recordComparison 60 7 (some 20) none (some 18)
          { records := [{ timestamp := 0, forecast := 20, forecastLookahead := none,
                          actual := 18, delta := 2 }],
            last_updated := 0 } 0) 0).records
      = [{ timestamp := 0, forecast := 20, forecastLookahead := none,
           actual := 18, delta := 2 }] := by
  have hmem :
      ({ timestamp := 0, forecast := 20, forecastLookahead := none, actual := 18, delta := 2 } : HRecord) ∈
        [({ timestamp := 0, forecast := 20, forecastLookahead := none, actual := 18, delta := 2 } : HRecord)] :=
    List.mem_singleton.mpr rfl
  have hq1 :
      (({ records := [{ timestamp := 0, forecast := 20, forecastLookahead := none, actual := 18, delta := 2 }], last_updated := 0 } : HistoryLog)).records.any
        (fun r => decide (r.timestamp > 0 - 60 * 60 * 1000 * (8 / 10))) = true := by
    rw [List.any_eq_true]
    refine ⟨_, hmem, ?_⟩
    simp only [decide_eq_true_eq]
    norm_num
  have h1 := recordComparison_skip 60 7 (some 20) none (some 18)
    { records := [{ timestamp := 0, forecast := 20, forecastLookahead := none, actual := 18, delta := 2 }], last_updated := 0 } 0 hq1
  have hfil :
      [({ timestamp := 0, forecast := 20, forecastLookahead := none, actual := 18, delta := 2 } : HRecord)].filter
        (fun r => decide (r.timestamp > 0 - 7 * 24 * 60 * 60 * 1000)) =
      [({ timestamp := 0, forecast := 20, forecastLookahead := none, actual := 18, delta := 2 } : HRecord)] := by
    apply filter_singleton_pos
    simp only [decide_eq_true_eq]
    norm_num
  have hq2 :
      ([({ timestamp := 0, forecast := 20, forecastLookahead := none, actual := 18, delta := 2 } : HRecord)].filter
        (fun r => decide (r.timestamp > 0 - 7 * 24 * 60 * 60 * 1000))).any
        (fun r => decide (r.timestamp > 0 - 60 * 60 * 1000 * (8 / 10))) = true := by
    rw [hfil, List.any_eq_true]
    refine ⟨_, hmem, ?_⟩
    simp only [decide_eq_true_eq]
    norm_num
  have h2 := recordComparison_skip 60 7 (some 20) none (some 18)
    (recordComparison 60 7 (some 20) none (some 18)
      { records := [{ timestamp := 0, forecast := 20, forecastLookahead := none,
                      actual := 18, delta := 2 }],
        last_updated := 0 } 0) 0
  rw [h1] at h2
  rw [h2 hq2, hfil, hfil]

/-- C3 amended: an append is skipped whenever some existing record is newer
than `now - dedupWindow`; consequently, when the starting history has no
record inside the first call's dedup window, forecast and actual are present,
and the dedup window does not exceed the retention window, two calls within
0.8 of the refresh interval of each other add exactly one record — the first
call appends the record stamped `now1` (and prunes), the second call changes
the stored records only by retention pruning, and the appended record is
still present afterwards. -/
theorem dedup_two_calls_amended (ri hd : ℚ) (f a : ℚ) (lk : Option ℚ)
    (h0 : HistoryLog) (now1 now2 : ℚ)
    (hri : 0 < ri)
    (hquiet : ∀ r ∈ h0.records, r.timestamp ≤ now1 - ri * 60 * 1000 * (8 / 10))
    (hord : now1 ≤ now2)
    (hclose : now2 - now1 < ri * 60 * 1000 * (8 / 10))
    (hret : ri * 60 * 1000 * (8 / 10) ≤ hd * 24 * 60 * 60 * 1000) :
    (recordComparison ri hd (some f) lk (some a) h0 now1).records
        = h0.records.filter
            (fun r => decide (r.timestamp > now1 - hd * 24 * 60 * 60 * 1000))
          ++ [({ timestamp := now1, forecast := f, forecastLookahead := lk,
                 actual := a, delta := f - a } : HRecord)] ∧
    (recordComparison ri hd (some f) lk (some a)
        (recordComparison ri hd (some f) lk (some a) h0 now1) now2).records
        = (recordComparison ri hd (some f) lk (some a) h0 now1).records.filter
            (fun r => decide (r.timestamp > now2 - hd * 24 * 60 * 60 * 1000)) ∧
    ({ timestamp := now1, forecast := f, forecastLookahead := lk,
       actual := a, delta := f - a } : HRecord)
      ∈ (recordComparison ri hd (some f) lk (some a)
          (recordComparison ri hd (some f) lk (some a) h0 now1) now2).records := by
  have hW : 0 < ri * 60 * 1000 * (8 / 10) := by nlinarith
  have hq1 : h0.records.any
      (fun r => decide (r.timestamp > now1 - ri * 60 * 1000 * (8 / 10))) = false := by
    rw [List.any_eq_false]
    intro r hr
    simpa using not_lt.mpr (hquiet r hr)
  have hsurv1 : now1 > now1 - hd * 24 * 60 * 60 * 1000 := by nlinarith
  have h1 : (recordComparison ri hd (some f) lk (some a) h0 now1).records
      = h0.records.filter
          (fun r => decide (r.timestamp > now1 - hd * 24 * 60 * 60 * 1000))
        ++ [({ timestamp := now1, forecast := f, forecastLookahead := lk,
               actual := a, delta := f - a } : HRecord)] := by
    rw [recordComparison_append ri hd f a lk h0 now1 hq1, List.filter_append,
      filter_singleton_pos (by simp only [decide_eq_true_eq]; exact hsurv1)]
  have hmem1 :
      ({ timestamp := now1, forecast := f, forecastLookahead := lk, actual := a, delta := f - a } : HRecord)
        ∈ (recordComparison ri hd (some f) lk (some a) h0 now1).records := by
    rw [h1]
    exact List.mem_append_right _ (List.mem_singleton.mpr rfl)
  have hq2 : (recordComparison ri hd (some f) lk (some a) h0 now1).records.any
      (fun r => decide (r.timestamp > now2 - ri * 60 * 1000 * (8 / 10))) = true := by
    rw [List.any_eq_true]
    refine ⟨_, hmem1, ?_⟩
    simp only [decide_eq_true_eq]
    show now1 > now2 - ri * 60 * 1000 * (8 / 10)
    linarith
  have h2 := recordComparison_skip ri hd (some f) lk (some a)
    (recordComparison ri hd (some f) lk (some a) h0 now1) now2 hq2
  refine ⟨h1, h2, ?_⟩
  rw [h2, List.mem_filter]
  refine ⟨hmem1, ?_⟩
  simp only [decide_eq_true_eq]
  show now1 > now2 - hd * 24 * 60 * 60 * 1000
  linarith

/-- Closed witness for `dedup_two_calls_amended`: an empty starting history,
refresh interval 60 minutes, retention 7 days, calls at 0 ms and 1 000 000 ms. -/
theorem dedup_two_calls_amended_witness :
    (recordComparison 60 7 (some 20) none (some 18) emptyLog 0).records
        = emptyLog.records.filter
            (fun r => decide (r.timestamp > 0 - 7 * 24 * 60 * 60 * 1000))
          ++ [({ timestamp := 0, forecast := 20, forecastLookahead := none,
                 actual := 18, delta := 20 - 18 } : HRecord)] ∧
    (recordComparison 60 7 (some 20) none (some 18)
        (recordComparison 60 7 (some 20) none (some 18) emptyLog 0) 1000000).records
        = (recordComparison 60 7 (some 20) none (some 18) emptyLog 0).records.filter
            (fun r => decide (r.timestamp > 1000000 - 7 * 24 * 60 * 60 * 1000)) ∧
    ({ timestamp := 0, forecast := 20, forecastLookahead := none,
       actual := 18, delta := 20 - 18 } : HRecord)
      ∈ (recordComparison 60 7 (some 20) none (some 18)
          (recordComparison 60 7 (some 20) none (some 18) emptyLog 0) 1000000).records :=
  dedup_two_calls_amended 60 7 20 18 none emptyLog 0 1000000
    (by norm_num) (by intro r hr; simp [emptyLog] at hr) (by norm_num)
    (by norm_num) (by norm_num)

/-- C5 counterexample: a stored payload that contains a `pending_forecasts`
field whose value is the (falsy) number 0, alongside a valid records list.
`_loadHistory` returns it unchanged instead of resetting to the empty log,
because the code tests the field's truthiness, not its presence. -/
theorem load_migration_counterexample :
    loadHistory (some
        { pending_forecasts := JsonField.jnum 0,
          records := some [{ timestamp := 0, forecast := JsonField.jnum 20,
                             actual := 18 }],
          last_updated := 5 })
      = { pending_forecasts := JsonField.jnum 0,
          records := some [{ timestamp := 0, forecast := JsonField.jnum 20,
                             actual := 18 }],
          last_updated := 5 } ∧
    loadHistory (some
        { pending_forecasts := JsonField.jnum 0,
          records := some [{ timestamp := 0, forecast := JsonField.jnum 20,
                             actual := 18 }],
          last_updated := 5 })
      ≠ emptyStoredData := by decide

/-- C5 amended: `_loadHistory` discards all prior records and returns the
empty log for every stored payload whose `pending_forecasts` field is truthy
(in the legacy format it held a non-empty object or array, hence truthy), or
whose records list is non-empty with a first record whose forecast field is
not a plain number. -/
theorem load_migration_amended (data : StoredData)
    (h : data.pending_forecasts.truthy = true
         ∨ ∃ first rest, data.records = some (first :: rest)
             ∧ first.forecast.isNumber = false) :
    loadHistory (some data) = emptyStoredData := by
  rcases h with h | ⟨first, rest, hr, hf⟩
  · simp [loadHistory, h]
  · by_cases ht : data.pending_forecasts.truthy = true
    · simp [loadHistory, ht]
    · simp [loadHistory, ht, hr, hf]

/-- Closed witness for `load_migration_amended`: a legacy payload whose
`pending_forecasts` field holds an array. -/
theorem load_migration_amended_witness :
    loadHistory (some
        { pending_forecasts := JsonField.jarr, records := some [],
          last_updated := 3 })
      = emptyStoredData :=
  load_migration_amended
    { pending_forecasts := JsonField.jarr, records := some [], last_updated := 3 }
    (Or.inl rfl)

/-- C10: `_normalizeTemperature` is total in its source unit: a missing
(null / undefined) unit attribute raises nothing and passes the value
through unchanged, for every target unit. -/
theorem normalize_temperature_null_unit (v : ℚ) (tu : String) :
    normalizeTemperature v none tu = v := by
  unfold normalizeTemperature
  have hnorm : normalizeSourceUnit none = [] := rfl
  simp [hnorm]

/-- C6: the unit normalizer contract: source and target units that match
after case/whitespace/"DEG" normalization pass the value through unchanged;
a Celsius-denoting source unit with a Fahrenheit target converts by
`v*9/5+32`; a Fahrenheit-denoting source unit with a Celsius target converts
by `(v-32)*5/9`; a unit denoting neither passes the value through unchanged
with no error path. -/
theorem normalize_temperature_contract (v : ℚ) (su : Option String) (tu : String) :
    (normalizeSourceUnit su = unitNormForm tu → normalizeTemperature v su tu = v) ∧
    (jsToUpper tu = ['F'] → (normalizeSourceUnit su).contains 'C' = true →
        normalizeTemperature v su tu = v * (9 / 5) + 32) ∧
    (jsToUpper tu = ['C'] → (normalizeSourceUnit su).contains 'F' = true →
        normalizeTemperature v su tu = (v - 32) * (5 / 9)) ∧
    ((normalizeSourceUnit su).contains 'C' = false →
      (normalizeSourceUnit su).contains 'F' = false →
        normalizeTemperature v su tu = v) := by
  refine ⟨?_, ?_, ?_, ?_⟩
  · intro hmatch
    simp only [normalizeTemperature]
    split_ifs with h1 h2 h3 h4 h5
    · rfl
    · rcases h2 with ⟨hsu, htu⟩
      rw [hsu, htu] at hmatch
      exact absurd hmatch (by decide)
    · rcases h3 with ⟨hsu, htu⟩
      rw [hsu, htu] at hmatch
      exact absurd hmatch (by decide)
    · rcases h4 with ⟨hcon, htar⟩
      rw [hmatch, unitNormForm, htar] at hcon
      exact absurd hcon (by decide)
    · rcases h5 with ⟨hcon, htar⟩
      rw [hmatch, unitNormForm, htar] at hcon
      exact absurd hcon (by decide)
    · rfl
  · intro htu hC
    simp only [normalizeTemperature]
    split_ifs with h1 h2 h3 h4 h5
    · rw [h1] at hC
      have hof : normalizeSourceUnit (some tu) = unitNormForm tu := rfl
      rw [hof, unitNormForm, htu] at hC
      exact absurd hC (by decide)
    · rfl
    · rcases h3 with ⟨hsu, htuC⟩
      rw [htuC] at htu
      exact absurd htu (by decide)
    · rfl
    · exact absurd ⟨hC, htu⟩ h4
    · exact absurd ⟨hC, htu⟩ h4
  · intro htu hF
    simp only [normalizeTemperature]
    split_ifs with h1 h2 h3 h4 h5
    · rw [h1] at hF
      have hof : normalizeSourceUnit (some tu) = unitNormForm tu := rfl
      rw [hof, unitNormForm, htu] at hF
      exact absurd hF (by decide)
    · rcases h2 with ⟨hsu, htuF⟩
      rw [htuF] at htu
      exact absurd htu (by decide)
    · rfl
    · rcases h4 with ⟨hcon, htar⟩
      rw [htu] at htar
      exact absurd htar (by decide)
    · rfl
    · exact absurd ⟨hF, htu⟩ h5
  · intro hC hF
    simp only [normalizeTemperature]
    split_ifs with h1 h2 h3 h4 h5
    · rfl
    · rcases h2 with ⟨hsu, htu⟩
      rw [hsu] at hC
      exact absurd hC (by decide)
    · rcases h3 with ⟨hsu, htu⟩
      rw [hsu] at hF
      exact absurd hF (by decide)
    · rcases h4 with ⟨hcon, htar⟩
      rw [hC] at hcon
      exact absurd hcon (by decide)
    · rcases h5 with ⟨hcon, htar⟩
      rw [hF] at hcon
      exact absurd hcon (by decide)
    · rfl

/-- Closed witness for `normalize_temperature_contract`: the specification
scenario, 50 degrees Fahrenheit displayed in Celsius normalizes to 10. -/
theorem normalize_temperature_contract_witness :
    normalizeTemperature 50 (some "F") "C" = 10 := by
  have h := (normalize_temperature_contract 50 (some "F") "C").2.2.1
    (by decide) (by decide)
  rw [h]
  norm_num

/-- The fold invariant of the Tempest closest-entry scan: starting from a
candidate with a known time difference, folding over entries that all carry
nonzero times lands on an entry from the start or the list whose time
difference is minimal among everything seen. -/
theorem tempestFold_min (ts : ℚ) :
    ∀ (l : List TempestHourly) (best : TempestHourly) (bt : ℚ),
      best.time = some bt →
      (∀ e ∈ l, e.time ≠ none ∧ e.time ≠ some 0) →
      ∃ rb rt, l.foldl (tempestStep ts) (best, some |bt - ts|) = (rb, some |rt - ts|) ∧
        rb.time = some rt ∧ (rb = best ∨ rb ∈ l) ∧ |rt - ts| ≤ |bt - ts| ∧
        ∀ e ∈ l, ∀ u, e.time = some u → |rt - ts| ≤ |u - ts|
  | [], best, bt, hbt, _ => ⟨best, bt, rfl, hbt, Or.inl rfl, le_refl _, by simp⟩
  | e :: l', best, bt, hbt, hall => by
    obtain ⟨het, he0⟩ := hall e (List.mem_cons_self e l')
    obtain ⟨u, hu⟩ : ∃ u, e.time = some u := by
      cases h : e.time with
      | none => exact absurd h het
      | some u => exact ⟨u, rfl⟩
    have hu0 : u ≠ 0 := by
      intro h0
      rw [h0] at hu
      exact he0 hu
    have hall' : ∀ x ∈ l', x.time ≠ none ∧ x.time ≠ some 0 :=
      fun x hx => hall x (List.mem_cons_of_mem e hx)
    rw [List.foldl_cons]
    have hstep : tempestStep ts (best, some |bt - ts|) e =
        if |u - ts| < |bt - ts| then (e, some |u - ts|) else (best, some |bt - ts|) := by
      simp only [tempestStep, hu]
      rw [if_pos hu0]
    by_cases hlt : |u - ts| < |bt - ts|
    · rw [hstep, if_pos hlt]
      obtain ⟨rb, rt, hfold, hrt, hmem, hle, hmin⟩ := tempestFold_min ts l' e u hu hall'
      refine ⟨rb, rt, hfold, hrt, ?_, le_trans hle (le_of_lt hlt), ?_⟩
      · rcases hmem with h | h
        · exact Or.inr (h ▸ List.mem_cons_self e l')
        · exact Or.inr (List.mem_cons_of_mem e h)
      · intro x hx ux hux
        rcases List.mem_cons.mp hx with h | h
        · rw [h] at hux
          rw [hux] at hu
          rw [Option.some.inj hu]
          exact hle
        · exact hmin x h ux hux
    · rw [hstep, if_neg hlt]
      obtain ⟨rb, rt, hfold, hrt, hmem, hle, hmin⟩ := tempestFold_min ts l' best bt hbt hall'
      refine ⟨rb, rt, hfold, hrt, ?_, hle, ?_⟩
      · rcases hmem with h | h
        · exact Or.inl h
        · exact Or.inr (List.mem_cons_of_mem e h)
      · intro x hx ux hux
        rcases List.mem_cons.mp hx with h | h
        · rw [h] at hux
          rw [hux] at hu
          rw [Option.some.inj hu]
          exact le_trans hle (not_lt.mp hlt)
        · exact hmin x h ux hux

/-- C7 counterexample: an hourly array whose first entry carries no `time`
field.  The scan's starting difference is `NaN`, every comparison against it
is false, and the first (timestamp-less) entry is returned even though the
second entry's timestamp matches the current time exactly — so the selected
entry does not minimize the time difference over the entries carrying a
timestamp. -/
theorem tempest_current_counterexample :
    selectCurrentHourly { time := none, air_temperature := some 50 }
        [{ time := some 1000, air_temperature := some 60 }] 1000
      = { time := none, air_temperature := some 50 } := by
  norm_num [selectCurrentHourly, tempestStep]

/-- C7 amended: for every non-empty hourly forecast array in which every
entry carries a nonzero timestamp, the entry `_fetchFromTempest` selects as
"current" is an element of the array whose timestamp minimizes the absolute
difference to the current time over all entries — not necessarily the first
array element. -/
theorem tempest_current_minimizes (first : TempestHourly) (rest : List TempestHourly)
    (ts : ℚ) (hall : ∀ e ∈ first :: rest, e.time ≠ none ∧ e.time ≠ some 0) :
    selectCurrentHourly first rest ts ∈ first :: rest ∧
    ∃ t, (selectCurrentHourly first rest ts).time = some t ∧
      ∀ e ∈ first :: rest, ∀ u, e.time = some u → |t - ts| ≤ |u - ts| := by
  obtain ⟨hft, hf0⟩ := hall first (List.mem_cons_self first rest)
  obtain ⟨t0, ht0⟩ : ∃ t0, first.time = some t0 := by
    cases h : first.time with
    | none => exact absurd h hft
    | some t0 => exact ⟨t0, rfl⟩
  have ht00 : t0 ≠ 0 := fun h0 => hf0 (h0 ▸ ht0)
  have hall' : ∀ x ∈ rest, x.time ≠ none ∧ x.time ≠ some 0 :=
    fun x hx => hall x (List.mem_cons_of_mem first hx)
  have hsel : selectCurrentHourly first rest ts
      = (rest.foldl (tempestStep ts) (first, some |t0 - ts|)).1 := by
    unfold selectCurrentHourly
    rw [List.foldl_cons]
    have hstep : tempestStep ts (first, first.time.map (fun t => |t - ts|)) first
        = (first, some |t0 - ts|) := by
      simp only [tempestStep, ht0, Option.map_some']
      rw [if_pos ht00, if_neg (lt_irrefl _)]
    rw [hstep]
  obtain ⟨rb, rt, hfold, hrt, hmem, hle, hmin⟩ := tempestFold_min ts rest first t0 ht0 hall'
  rw [hsel, hfold]
  refine ⟨?_, rt, hrt, ?_⟩
  · rcases hmem with h | h
    · exact h ▸ List.mem_cons_self first rest
    · exact List.mem_cons_of_mem first h
  · intro x hx ux hux
    rcases List.mem_cons.mp hx with h | h
    · rw [h] at hux
      rw [hux] at ht0
      rw [Option.some.inj ht0]
      exact hle
    · exact hmin x h ux hux

/-- Closed witness for `tempest_current_minimizes`: the second entry sits at
the current time and is selected over the first. -/
theorem tempest_current_minimizes_witness :
    selectCurrentHourly { time := some 7200, air_temperature := some 60 }
        [{ time := some 3600, air_temperature := some 61 }] 3600
      ∈ [({ time := some 7200, air_temperature := some 60 } : TempestHourly),
         { time := some 3600, air_temperature := some 61 }] ∧
    ∃ t, (selectCurrentHourly { time := some 7200, air_temperature := some 60 }
        [{ time := some 3600, air_temperature := some 61 }] 3600).time = some t ∧
      ∀ e ∈ [({ time := some 7200, air_temperature := some 60 } : TempestHourly),
             { time := some 3600, air_temperature := some 61 }],
        ∀ u, e.time = some u → |t - 3600| ≤ |u - 3600| :=
  tempest_current_minimizes { time := some 7200, air_temperature := some 60 }
    [{ time := some 3600, air_temperature := some 61 }] 3600 (by decide)

/-- C8: in comparison mode, a failed secondary fetch — HTTP error, thrown
exception, or a payload missing the current temperature — does not fail the
cycle: no error is recorded, the secondary current values are nulled and the
secondary future series emptied, the primary comparison is still recorded
and both statistics are recomputed, and the secondary history is untouched. -/
theorem secondary_failure_nonfatal (ri hd : ℚ) (tu : String) (inp : FetchInputs)
    (now : ℚ) (s0 : CardState) (a f : ℚ) (lk : Option ℚ) (fut : List FuturePoint)
    (hs : updateActualTemperature inp.sensor tu = Except.ok a)
    (hp : inp.primary = Except.ok (f, lk, fut))
    (hsec : inp.secondary.failed = true) :
    (fetchData true ri hd tu inp now s0).error = none ∧
    (fetchData true ri hd tu inp now s0).currentForecastSecondary = none ∧
    (fetchData true ri hd tu inp now s0).currentForecastSecondaryLookahead = none ∧
    (fetchData true ri hd tu inp now s0).futureForecastSecondary = [] ∧
    (fetchData true ri hd tu inp now s0).primaryHistory
      = recordComparison ri hd (some f) lk (some a) s0.primaryHistory now ∧
    (fetchData true ri hd tu inp now s0).statistics
      = some (calculateStatistics
          (recordComparison ri hd (some f) lk (some a) s0.primaryHistory now).records now) ∧
    (fetchData true ri hd tu inp now s0).secondaryHistory = s0.secondaryHistory ∧
    (fetchData true ri hd tu inp now s0).statisticsSecondary
      = some (calculateStatistics s0.secondaryHistory.records now) := by
  have hsec' : fetchFromOpenMeteoSecondary inp.secondary tu = (none, none, []) := by
    rcases ho : inp.secondary with msg | st | d
    · rfl
    · rfl
    · rw [ho] at hsec
      simp only [SecondaryFetch.failed] at hsec
      rw [Option.isNone_iff_eq_none] at hsec
      simp [fetchFromOpenMeteoSecondary, hsec]
  unfold fetchData
  rw [hs, hp, hsec']
  simp

/-- Closed witness for `secondary_failure_nonfatal`: a 500 HTTP response on
the secondary fetch with a successful sensor read and primary fetch. -/
theorem secondary_failure_nonfatal_witness :
    (fetchData true 60 7 "C"
        { sensor := { found := true, parsed := some 20, unit := some "C" },
          primary := Except.ok (22, none, []),
          secondary := SecondaryFetch.httpNotOk 500 } 0 initialState).error = none ∧
    (fetchData true 60 7 "C"
        { sensor := { found := true, parsed := some 20, unit := some "C" },
          primary := Except.ok (22, none, []),
          secondary := SecondaryFetch.httpNotOk 500 } 0 initialState).currentForecastSecondary
      = none ∧
    (fetchData true 60 7 "C"
        { sensor := { found := true, parsed := some 20, unit := some "C" },
          primary := Except.ok (22, none, []),
          secondary := SecondaryFetch.httpNotOk 500 } 0
        initialState).currentForecastSecondaryLookahead = none ∧
    (fetchData true 60 7 "C"
        { sensor := { found := true, parsed := some 20, unit := some "C" },
          primary := Except.ok (22, none, []),
          secondary := SecondaryFetch.httpNotOk 500 } 0 initialState).futureForecastSecondary
      = [] ∧
    (fetchData true 60 7 "C"
        { sensor := { found := true, parsed := some 20, unit := some "C" },
          primary := Except.ok (22, none, []),
          secondary := SecondaryFetch.httpNotOk 500 } 0 initialState).primaryHistory
      = recordComparison 60 7 (some 22) none (some 20) initialState.primaryHistory 0 ∧
    (fetchData true 60 7 "C"
        { sensor := { found := true, parsed := some 20, unit := some "C" },
          primary := Except.ok (22, none, []),
          secondary := SecondaryFetch.httpNotOk 500 } 0 initialState).statistics
      = some (calculateStatistics
          (recordComparison 60 7 (some 22) none (some 20)
            initialState.primaryHistory 0).records 0) ∧
    (fetchData true 60 7 "C"
        { sensor := { found := true, parsed := some 20, unit := some "C" },
          primary := Except.ok (22, none, []),
          secondary := SecondaryFetch.httpNotOk 500 } 0 initialState).secondaryHistory
      = initialState.secondaryHistory ∧
    (fetchData true 60 7 "C"
        { sensor := { found := true, parsed := some 20, unit := some "C" },
          primary := Except.ok (22, none, []),
          secondary := SecondaryFetch.httpNotOk 500 } 0 initialState).statisticsSecondary
      = some (calculateStatistics initialState.secondaryHistory.records 0) :=
  secondary_failure_nonfatal 60 7 "C"
    { sensor := { found := true, parsed := some 20, unit := some "C" },
      primary := Except.ok (22, none, []),
      secondary := SecondaryFetch.httpNotOk 500 } 0 initialState 20 22 none []
    rfl rfl rfl

/-- C9: when the sensor reading succeeds and the primary forecast fetch then
throws, the already-obtained actual reading is kept: the current-actual state
after the failed cycle holds the value read at the start of the cycle, the
error is recorded, and the stored histories are untouched. -/
theorem actual_retained_on_primary_failure (cm : Bool) (ri hd : ℚ) (tu : String)
    (inp : FetchInputs) (now : ℚ) (s0 : CardState) (a : ℚ) (e : String)
    (hs : updateActualTemperature inp.sensor tu = Except.ok a)
    (hp : inp.primary = Except.error e) :
    (fetchData cm ri hd tu inp now s0).currentActual = some a ∧
    (fetchData cm ri hd tu inp now s0).error = some e ∧
    (fetchData cm ri hd tu inp now s0).primaryHistory = s0.primaryHistory ∧
    (fetchData cm ri hd tu inp now s0).secondaryHistory = s0.secondaryHistory := by
  unfold fetchData
  rw [hs, hp]
  simp

/-- Closed witness for `actual_retained_on_primary_failure`: a successful
sensor read of 20 followed by a thrown primary fetch error. -/
theorem actual_retained_on_primary_failure_witness :
    (fetchData true 60 7 "C"
        { sensor := { found := true, parsed := some 20, unit := some "C" },
          primary := Except.error "Tempest API error: 500",
          secondary := SecondaryFetch.httpNotOk 500 } 0 initialState).currentActual
      = some 20 ∧
    (fetchData true 60 7 "C"
        { sensor := { found := true, parsed := some 20, unit := some "C" },
          primary := Except.error "Tempest API error: 500",
          secondary := SecondaryFetch.httpNotOk 500 } 0 initialState).error
      = some "Tempest API error: 500" ∧
    (fetchData true 60 7 "C"
        { sensor := { found := true, parsed := some 20, unit := some "C" },
          primary := Except.error "Tempest API error: 500",
          secondary := SecondaryFetch.httpNotOk 500 } 0 initialState).primaryHistory
      = initialState.primaryHistory ∧
    (fetchData true 60 7 "C"
        { sensor := { found := true, parsed := some 20, unit := some "C" },
          primary := Except.error "Tempest API error: 500",
          secondary := SecondaryFetch.httpNotOk 500 } 0 initialState).secondaryHistory
      = initialState.secondaryHistory :=
  actual_retained_on_primary_failure true 60 7 "C"
    { sensor := { found := true, parsed := some 20, unit := some "C" },
      primary := Except.error "Tempest API error: 500",
      secondary := SecondaryFetch.httpNotOk 500 } 0 initialState 20
    "Tempest API error: 500" rfl rfl

end ForecastCard
